import Mathlib

/-!
Shallow embedding of the dingtalk-ai-assistant repository (Python) and proofs
of the specification claims about it.

The embedding covers:
* the per-user bounded conversation history of `OpenAIUtils.chat`
  (src/utils/openai_utils.py) together with `clear_conversation` and
  `should_generate_report`;
* the webhook signature check of `DingTalkUtils.verify_signature`
  (src/utils/dingtalk_utils.py);
* the webhook endpoint and message router of src/app/app.py;
* the daily-news fallback chain of `NewsUtils.get_daily_news`
  (src/utils/news_utils.py);
* the markdown bold/italic replacement of
  `PDFGenerator.generate_report_pdf` (src/utils/pdf_utils.py).

External collaborators (the OpenAI client, the HMAC-SHA256 library primitive,
the NewsAPI HTTP call, the PDF layout engine) are modelled as explicit
function parameters; everything the repository itself computes is translated
directly from the Python source.
-/

namespace DingTalk

/-- Role string of one conversation-history entry in
`OpenAIUtils.conversation_history` (src/utils/openai_utils.py): the Python
code uses the literal strings "system", "user" and "assistant". -/
inductive Role where
  | system
  | user
  | assistant
deriving DecidableEq, Repr

/-- One entry of a conversation history: the Python dict
with keys "role" and "content" appended by `OpenAIUtils.chat`. -/
structure Msg where
  role : Role
  content : String
deriving DecidableEq, Repr

/-- The history-length cap: the literal 21 in `OpenAIUtils.chat` line 57
("system + 10 rounds of dialogue (20 entries)"). -/
def historyCap : Nat := 21

/-- The trimming rule of `OpenAIUtils.chat` lines 56-61: when the history
holds more than 21 entries, keep every system-role entry followed by the
last 20 entries (`self.conversation_history[user_id][-20:]`). -/
def trimHistory (h : List Msg) : List Msg :=
  if h.length > 21 then
    h.filter (fun m => m.role == Role.system) ++ h.drop (h.length - 20)
  else h

/-- The transcript seeded for a user absent from `conversation_history`
(`OpenAIUtils.chat` lines 41-48): the system prompt becomes the first turn
exactly when it is a nonempty string (Python truthiness of `system_prompt`). -/
def initHistory (system_prompt : String) : List Msg :=
  if system_prompt ≠ "" then [⟨Role.system, system_prompt⟩] else []

/-- The Session Store operation `append_and_trim` of the specification, as
realised by `OpenAIUtils.chat` lines 41-61: seed the transcript when the user
has none, append one turn, then apply the trimming rule. -/
def append_and_trim (hist : Option (List Msg)) (system_prompt : String)
    (m : Msg) : List Msg :=
  trimHistory (hist.getD (initHistory system_prompt) ++ [m])

/-- Transcript reached after a sequence of `append_and_trim` calls for one
user, starting from no transcript.  The first call seeds the transcript with
`initHistory system_prompt`, so folding from that seed is exactly the call
sequence of the source. -/
def runCalls (system_prompt : String) (turns : List Msg) : List Msg :=
  turns.foldl (fun h m => append_and_trim (some h) system_prompt m)
    (initHistory system_prompt)

/-- The report-trigger classifier `OpenAIUtils.should_generate_report`
(src/utils/openai_utils.py lines 161-172):
`any(keyword in message for keyword in keywords)`, a case-sensitive
substring test, modelled on character lists. -/
def should_generate_report (message : List Char) (keywords : List (List Char)) :
    Bool :=
  keywords.any (fun k => decide (k <:+: message))

/-- The configured trigger keywords `Config.REPORT_TRIGGER_KEYWORDS`
(src/config/config.py). -/
def REPORT_TRIGGER_KEYWORDS : List (List Char) :=
  ["报告".toList, "详细".toList, "分析".toList, "深入".toList, "研究".toList]

/-- The in-memory session table `OpenAIUtils.conversation_history`: a map
from user id to transcript, absent users mapped to `none`. -/
def Table : Type := String → Option (List Msg)

/-- Pointwise update of the session table, the effect of the Python dict
assignment `self.conversation_history[user_id] = ...`. -/
def Table.update (tbl : Table) (user_id : String) (h : List Msg) : Table :=
  fun u => if u = user_id then some h else tbl u

/-- Model of `OpenAIUtils.clear_conversation` (src/utils/openai_utils.py lines
151-159): delete the user's entry when present, do nothing otherwise. -/
def clear_conversation (tbl : Table) (user_id : String) : Table :=
  fun u => if u = user_id then none else tbl u

/-- Model of `OpenAIUtils.chat` (src/utils/openai_utils.py lines 29-84) as a state
transformer on the session table.  The OpenAI completion call is modelled by
the `backend` parameter, which receives the trimmed history and either
returns the assistant text or raises.  The user turn is appended and the
history trimmed before the call; on success the assistant turn is appended
without a further trim; on an exception the history keeps the user turn and
the reply is the apology string of line 84. -/
def chat (tbl : Table) (user_id message system_prompt : String)
    (backend : List Msg → Except String String) : String × Table :=
  let h1 := append_and_trim (tbl user_id) system_prompt ⟨Role.user, message⟩
  match backend h1 with
  | .ok reply =>
      (reply, tbl.update user_id (h1 ++ [⟨Role.assistant, reply⟩]))
  | .error e =>
      ("抱歉，处理您的请求时出现错误：" ++ e, tbl.update user_id h1)

/-! ### Helper lemmas about the trimming rule -/

theorem initHistory_filter_system (sp : String) :
    (initHistory sp).filter (fun m => m.role == Role.system) = initHistory sp := by
  unfold initHistory
  split <;> simp

theorem initHistory_length_le_one (sp : String) : (initHistory sp).length ≤ 1 := by
  unfold initHistory
  split <;> simp

theorem filter_system_eq_nil {l : List Msg}
    (h : ∀ x ∈ l, x.role ≠ Role.system) :
    l.filter (fun m => m.role == Role.system) = [] := by
  rw [List.filter_eq_nil_iff]
  intro a ha
  simpa using h a ha

/-- One `append_and_trim` step preserves the shape
"seeded prefix followed by a suffix of the non-system turns appended so far"
and the length bound of 21. -/
theorem append_and_trim_step (sp : String) (processed : List Msg) (k : Nat)
    (m : Msg)
    (hproc : ∀ x ∈ processed, x.role ≠ Role.system)
    (hm : m.role ≠ Role.system)
    (hk : k ≤ processed.length)
    (hlen : (initHistory sp ++ processed.drop k).length ≤ 21) :
    ∃ k2, k2 ≤ (processed ++ [m]).length ∧
      trimHistory ((initHistory sp ++ processed.drop k) ++ [m])
        = initHistory sp ++ (processed ++ [m]).drop k2 ∧
      (initHistory sp ++ (processed ++ [m]).drop k2).length ≤ 21 := by
  by_cases hc : ((initHistory sp ++ processed.drop k) ++ [m]).length > 21
  · -- the cap is exceeded: the source keeps system entries plus the last 20
    have hL : (initHistory sp ++ processed.drop k).length = 21 := by
      simp only [List.length_append, List.length_cons, List.length_nil]
        at hc hlen ⊢
      omega
    have hfil : (((initHistory sp ++ processed.drop k) ++ [m]).filter
        (fun x => x.role == Role.system)) = initHistory sp := by
      rw [List.filter_append, List.filter_append,
        initHistory_filter_system,
        filter_system_eq_nil (fun x hx => hproc x (List.mem_of_mem_drop hx)),
        filter_system_eq_nil (by simpa using hm)]
      simp
    have h22 : ((initHistory sp ++ processed.drop k) ++ [m]).length - 20 = 2 := by
      simp only [List.length_append, hL, List.length_cons, List.length_nil]
    have htrim : trimHistory ((initHistory sp ++ processed.drop k) ++ [m])
        = initHistory sp ++
          ((initHistory sp ++ processed.drop k) ++ [m]).drop 2 := by
      rw [trimHistory, if_pos hc, hfil, h22]
    by_cases hsp : sp = ""
    · -- no seeded system turn: the seeded prefix is empty
      have hinit : initHistory sp = [] := by simp [initHistory, hsp]
      have hplen : processed.length = k + 21 := by
        rw [hinit] at hL
        simp only [List.nil_append, List.length_drop] at hL
        omega
      refine ⟨k + 2, ?_, ?_, ?_⟩
      · simp only [List.length_append, List.length_cons, List.length_nil]
        omega
      · rw [htrim, hinit]
        simp only [List.nil_append]
        rw [List.drop_append_of_le_length
            (show (2 : Nat) ≤ (processed.drop k).length by
              simp only [List.length_drop]; omega),
          List.drop_drop,
          List.drop_append_of_le_length (show k + 2 ≤ processed.length by omega)]
      · rw [hinit]
        simp only [List.nil_append, List.length_drop, List.length_append,
          List.length_cons, List.length_nil]
        omega
    · -- a seeded system turn is present and survives at position 0
      have hinit : initHistory sp = [⟨Role.system, sp⟩] := by
        rw [initHistory, if_pos hsp]
      have hplen : processed.length = k + 20 := by
        rw [hinit] at hL
        simp only [List.cons_append, List.nil_append, List.length_cons,
          List.length_drop] at hL
        omega
      refine ⟨k + 1, ?_, ?_, ?_⟩
      · simp only [List.length_append, List.length_cons, List.length_nil]
        omega
      · rw [htrim, hinit]
        simp only [List.cons_append, List.nil_append]
        have hD : ∀ (x : Msg) (l : List Msg),
            List.drop 2 (x :: l) = List.drop 1 l := fun x l => rfl
        rw [hD]
        congr 1
        rw [List.drop_append_of_le_length
            (show (1 : Nat) ≤ (processed.drop k).length by
              simp only [List.length_drop]; omega),
          List.drop_drop,
          List.drop_append_of_le_length (show k + 1 ≤ processed.length by omega)]
      · rw [hinit]
        simp only [List.cons_append, List.nil_append, List.length_cons,
          List.length_drop, List.length_append, List.length_nil]
        omega
  · -- within the cap: trimming is the identity
    refine ⟨k, ?_, ?_, ?_⟩
    · simp only [List.length_append, List.length_cons, List.length_nil]
      omega
    · rw [trimHistory, if_neg hc, List.append_assoc,
        List.drop_append_of_le_length hk]
    · rw [List.drop_append_of_le_length hk, ← List.append_assoc]
      exact Nat.not_lt.mp hc

/-- Folding `append_and_trim` over any sequence of non-system turns keeps the
transcript equal to the seeded prefix followed by a suffix of all turns
appended so far, with at most 21 entries. -/
theorem runCalls_aux (sp : String) (turns : List Msg) :
    ∀ (processed : List Msg) (k : Nat),
      (∀ x ∈ turns, x.role ≠ Role.system) →
      (∀ x ∈ processed, x.role ≠ Role.system) →
      k ≤ processed.length →
      (initHistory sp ++ processed.drop k).length ≤ 21 →
      ∃ k2, k2 ≤ (processed ++ turns).length ∧
        List.foldl (fun h m => append_and_trim (some h) sp m)
          (initHistory sp ++ processed.drop k) turns
          = initHistory sp ++ (processed ++ turns).drop k2 ∧
        (initHistory sp ++ (processed ++ turns).drop k2).length ≤ 21 := by
  induction turns with
  | nil =>
    intro processed k _ _ hk hlen
    exact ⟨k, by simpa using hk, by simp, by simpa using hlen⟩
  | cons m rest ih =>
    intro processed k hturns hproc hk hlen
    have hm : m.role ≠ Role.system := hturns m (by simp)
    obtain ⟨k2, hk2, heq, hlen2⟩ :=
      append_and_trim_step sp processed k m hproc hm hk hlen
    have hstep : append_and_trim (some (initHistory sp ++ processed.drop k)) sp m
        = initHistory sp ++ (processed ++ [m]).drop k2 := by
      simpa [append_and_trim] using heq
    have hproc2 : ∀ x ∈ processed ++ [m], x.role ≠ Role.system := by
      intro x hx
      rcases List.mem_append.1 hx with h | h
      · exact hproc x h
      · simp at h
        subst h
        exact hm
    obtain ⟨k3, hk3, heq3, hlen3⟩ := ih (processed ++ [m]) k2
      (fun x hx => hturns x (by simp [hx])) hproc2 hk2 hlen2
    have hassoc : processed ++ m :: rest = (processed ++ [m]) ++ rest := by
      simp
    refine ⟨k3, ?_, ?_, ?_⟩
    · rw [hassoc]
      exact hk3
    · simp only [List.foldl_cons]
      rw [hstep, heq3, hassoc]
    · rw [hassoc]
      exact hlen3

/-- C1.  For every system prompt and every sequence of `append_and_trim`
calls for one user appending user or assistant turns, after each call the
transcript has at most 21 entries; when a system prompt is configured the
seeded system turn remains at position 0; and the whole transcript is the
seeded prefix followed by a suffix of the appended turns in order, so when
the cap is exceeded the oldest non-system turns are discarded first and the
system turn is never evicted. -/
theorem c1_append_and_trim_invariants (sp : String) (turns : List Msg)
    (hns : ∀ x ∈ turns, x.role ≠ Role.system) :
    (runCalls sp turns).length ≤ 21 ∧
    (sp ≠ "" → (runCalls sp turns).head? = some ⟨Role.system, sp⟩) ∧
    ∃ k, runCalls sp turns = initHistory sp ++ turns.drop k := by
  obtain ⟨k2, hk2, heq, hlen⟩ := runCalls_aux sp turns [] 0 hns (by simp)
    (by simp)
    (by
      simp only [List.drop_nil, List.append_nil]
      exact Nat.le_trans (initHistory_length_le_one sp) (by omega))
  have hrun : runCalls sp turns = initHistory sp ++ turns.drop k2 := by
    have h0 : initHistory sp ++ List.drop 0 ([] : List Msg) = initHistory sp := by
      simp
    rw [runCalls, ← h0, heq]
    simp
  refine ⟨?_, ?_, k2, hrun⟩
  · rw [hrun]
    simpa using hlen
  · intro hsp
    rw [hrun, initHistory, if_pos hsp]
    simp

/-- Closed instance of C1 at a concrete prompt and 25 concrete user turns. -/
theorem c1_append_and_trim_invariants_witness :
    (∀ x ∈ (List.range 25).map (fun i => Msg.mk Role.user (toString i)),
        x.role ≠ Role.system) ∧
    ((runCalls "P" ((List.range 25).map
        (fun i => Msg.mk Role.user (toString i)))).length ≤ 21 ∧
      ("P" ≠ "" → (runCalls "P" ((List.range 25).map
        (fun i => Msg.mk Role.user (toString i)))).head?
          = some ⟨Role.system, "P"⟩) ∧
      ∃ k, runCalls "P" ((List.range 25).map
        (fun i => Msg.mk Role.user (toString i)))
          = initHistory "P" ++ ((List.range 25).map
            (fun i => Msg.mk Role.user (toString i))).drop k) := by
  refine ⟨by decide, c1_append_and_trim_invariants "P" _ (by decide)⟩

/-! ### C2: the report classifier -/

/-- C2.  `should_generate_report` returns `true` (Report) exactly when some
keyword of the list is a substring of the message, with case-sensitive
matching on characters; with an empty keyword list it always returns
`false` (Chat). -/
theorem c2_classify_iff_substring (message : List Char)
    (keywords : List (List Char)) :
    (should_generate_report message keywords = true ↔
      ∃ k ∈ keywords, k <:+: message) ∧
    should_generate_report message [] = false := by
  constructor
  · simp [should_generate_report, List.any_eq_true]
  · simp [should_generate_report]

/-! ### C3: webhook signature verification -/

/-- The signature check `DingTalkUtils.verify_signature`
(src/utils/dingtalk_utils.py lines 17-45).  The library primitive
base64(HMAC-SHA256(key, msg)) is an external collaborator, modelled by the
parameter `hmacB64` taking the key and the message; `now_ms` is the current
wall-clock time in milliseconds (`int(time.time() * 1000)`), and `timestamp`
is the integer value of the timestamp header (parsed with `int(...)`).  The
request is rejected when the timestamp is more than 3600000 ms away from
now, and otherwise accepted exactly when the computed signature over the
string "timestamp\nsecret" equals the `sign` header. -/
def verify_signature (hmacB64 : String → String → String)
    (now_ms timestamp : Int) (sign app_secret : String) : Bool :=
  if (now_ms - timestamp).natAbs > 3600000 then false
  else hmacB64 app_secret (toString timestamp ++ "\n" ++ app_secret) == sign

/-- Replacement of the character at position `i` of a string, used to state
single-byte corruption of a signature header. -/
def mutateAt (s : String) (i : Nat) (c : Char) : String :=
  ⟨s.data.set i c⟩

/-- C3.  With secret `S`, timestamp `T` and
`sign = base64(HMAC-SHA256(S, "T\nS"))`, verification succeeds when
evaluated at time `T`; it fails when the sign header is mutated at any
single position; and it fails when evaluated at time `T + 3600001`
milliseconds, the staleness bound being 3600000. -/
theorem c3_signature_verification (hmacB64 : String → String → String)
    (S : String) (T : Int) (i : Nat) (c : Char)
    (hi : i < (hmacB64 S (toString T ++ "\n" ++ S)).data.length)
    (hc : c ≠ (hmacB64 S (toString T ++ "\n" ++ S)).data[i]) :
    verify_signature hmacB64 T T (hmacB64 S (toString T ++ "\n" ++ S)) S
      = true ∧
    verify_signature hmacB64 T T
      (mutateAt (hmacB64 S (toString T ++ "\n" ++ S)) i c) S = false ∧
    verify_signature hmacB64 (T + 3600001) T
      (hmacB64 S (toString T ++ "\n" ++ S)) S = false := by
  have h0 : (T - T).natAbs = 0 := by omega
  refine ⟨?_, ?_, ?_⟩
  · rw [verify_signature, if_neg (by omega)]
    simp
  · rw [verify_signature, if_neg (by omega)]
    rw [beq_eq_false_iff_ne]
    intro h
    have hdata : (hmacB64 S (toString T ++ "\n" ++ S)).data
        = (hmacB64 S (toString T ++ "\n" ++ S)).data.set i c :=
      congrArg String.data h
    have hlt : i < ((hmacB64 S (toString T ++ "\n" ++ S)).data.set i c).length := by
      simpa using hi
    have hset := List.getElem_set_self hlt
    have hgot : (hmacB64 S (toString T ++ "\n" ++ S)).data[i] = c := by
      rw [List.getElem_of_eq hdata hi]
      exact hset
    exact hc hgot.symm
  · rw [verify_signature, if_pos (by omega)]

/-- Concrete external signing primitive used only to instantiate theorems
quantified over the HMAC collaborator. -/
def keyMsgConcat (key msg : String) : String := key ++ msg

/-- Closed instance of C3 at secret "s", timestamp 0 and a corruption of the
first signature byte. -/
theorem c3_signature_verification_witness :
    verify_signature keyMsgConcat 0 0
      (keyMsgConcat "s" (toString (0 : Int) ++ "\n" ++ "s")) "s" = true ∧
    verify_signature keyMsgConcat 0 0
      (mutateAt (keyMsgConcat "s" (toString (0 : Int) ++ "\n" ++ "s")) 0 'x')
      "s" = false ∧
    verify_signature keyMsgConcat 3600001 0
      (keyMsgConcat "s" (toString (0 : Int) ++ "\n" ++ "s")) "s" = false :=
  c3_signature_verification keyMsgConcat "s" 0 0 'x' (by decide) (by decide)

/-! ### C4: clearing a conversation -/

/-- C4.  `clear_conversation` drops the user's transcript entirely, is a
no-op when the user has no transcript, and a `clear` followed by one
`append_and_trim` yields exactly the fresh transcript `[m]` (length 1)
without a configured system prompt and `[system turn, m]` (length 2,
system turn first) with one — never a continuation of prior history. -/
theorem c4_clear_then_append (tbl : Table) (user_id sp : String) (m : Msg) :
    clear_conversation tbl user_id user_id = none ∧
    (tbl user_id = none → clear_conversation tbl user_id = tbl) ∧
    append_and_trim (clear_conversation tbl user_id user_id) sp m
      = (if sp = "" then [m] else [⟨Role.system, sp⟩, m]) := by
  refine ⟨by simp [clear_conversation], ?_, ?_⟩
  · intro habs
    funext u
    rw [clear_conversation]
    by_cases hu : u = user_id
    · rw [if_pos hu, hu, habs]
    · rw [if_neg hu]
  · rw [show clear_conversation tbl user_id user_id = none by
      simp [clear_conversation]]
    rw [append_and_trim, Option.getD_none, initHistory]
    by_cases hsp : sp = ""
    · rw [if_neg (by simp [hsp]), if_pos hsp]
      simp [trimHistory]
    · rw [if_pos hsp, if_neg hsp]
      simp [trimHistory]

/-- Closed instance of C4 at the empty table, user "u1", prompt "P". -/
theorem c4_clear_then_append_witness :
    clear_conversation (fun _ => none) "u1" "u1" = none ∧
    clear_conversation (fun _ => none) "u1" = (fun _ => none : Table) ∧
    append_and_trim (clear_conversation (fun _ => none) "u1" "u1") "P"
      ⟨Role.user, "hi"⟩ = [⟨Role.system, "P"⟩, ⟨Role.user, "hi"⟩] := by
  obtain ⟨h1, h2, h3⟩ :=
    c4_clear_then_append (fun _ => none) "u1" "P" ⟨Role.user, "hi"⟩
  rw [if_neg (by decide)] at h3
  exact ⟨h1, h2 rfl, h3⟩

/-! ### C10: backend failure inside chat -/

theorem trimHistory_concat_decomp (l : List Msg) (m : Msg) :
    ∃ l2, trimHistory (l ++ [m]) = l2 ++ [m] := by
  rw [trimHistory]
  by_cases hc : (l ++ [m]).length > 21
  · rw [if_pos hc]
    refine ⟨(l ++ [m]).filter (fun x => x.role == Role.system)
      ++ l.drop ((l ++ [m]).length - 20), ?_⟩
    rw [List.drop_append_of_le_length
        (by simp only [List.length_append, List.length_cons, List.length_nil]
            omega),
      List.append_assoc]
  · rw [if_neg hc]
    exact ⟨l, rfl⟩

theorem mem_trimHistory_append_two (l : List Msg) (a b : Msg) :
    a ∈ trimHistory (l ++ [a, b]) := by
  rw [trimHistory]
  by_cases hc : (l ++ [a, b]).length > 21
  · rw [if_pos hc,
      List.drop_append_of_le_length
        (by simp only [List.length_append, List.length_cons, List.length_nil]
            omega)]
    simp
  · rw [if_neg hc]
    simp

/-- C10.  When the backend call inside `chat` raises, the reply is prefixed
with "抱歉", the stored transcript is exactly the pre-call history with the
user turn appended and trimmed — the user turn is last, no assistant turn is
added, and the state is not rolled back — and every subsequent `chat` call
for the same user hands the failed user turn to the backend again. -/
theorem c10_backend_failure_keeps_user_turn (tbl : Table)
    (user_id message sp : String)
    (backend : List Msg → Except String String) (e : String)
    (herr : backend (append_and_trim (tbl user_id) sp ⟨Role.user, message⟩)
      = Except.error e) :
    (∃ rest, (chat tbl user_id message sp backend).1 = "抱歉" ++ rest) ∧
    (chat tbl user_id message sp backend).2 user_id
      = some (append_and_trim (tbl user_id) sp ⟨Role.user, message⟩) ∧
    (append_and_trim (tbl user_id) sp ⟨Role.user, message⟩).getLast?
      = some ⟨Role.user, message⟩ ∧
    ∀ message2 : String,
      Msg.mk Role.user message ∈ append_and_trim
        ((chat tbl user_id message sp backend).2 user_id) sp
        ⟨Role.user, message2⟩ := by
  obtain ⟨l2, hl2⟩ := trimHistory_concat_decomp
    ((tbl user_id).getD (initHistory sp)) ⟨Role.user, message⟩
  have hAT : append_and_trim (tbl user_id) sp ⟨Role.user, message⟩
      = l2 ++ [⟨Role.user, message⟩] := by
    rw [append_and_trim, hl2]
  have hchat : chat tbl user_id message sp backend
      = ("抱歉，处理您的请求时出现错误：" ++ e,
        tbl.update user_id
          (append_and_trim (tbl user_id) sp ⟨Role.user, message⟩)) := by
    rw [chat]
    simp only [herr]
  have hstate : (chat tbl user_id message sp backend).2 user_id
      = some (append_and_trim (tbl user_id) sp ⟨Role.user, message⟩) := by
    rw [hchat]
    simp [Table.update]
  refine ⟨?_, hstate, ?_, ?_⟩
  · refine ⟨"，处理您的请求时出现错误：" ++ e, ?_⟩
    rw [hchat, ← String.append_assoc]
    rfl
  · rw [hAT, List.getLast?_concat]
  · intro message2
    rw [hstate, append_and_trim, Option.getD_some, hAT, List.append_assoc]
    exact mem_trimHistory_append_two l2 ⟨Role.user, message⟩
      ⟨Role.user, message2⟩

/-- Closed instance of C10 at the empty table, user "u1", prompt "P" and a
backend that always raises. -/
theorem c10_backend_failure_keeps_user_turn_witness :
    (∃ rest, (chat (fun _ => none) "u1" "hi" "P"
        (fun _ => Except.error "boom")).1 = "抱歉" ++ rest) ∧
    (chat (fun _ => none) "u1" "hi" "P"
        (fun _ => Except.error "boom")).2 "u1"
      = some (append_and_trim ((fun _ => none : Table) "u1") "P"
          ⟨Role.user, "hi"⟩) ∧
    (append_and_trim ((fun _ => none : Table) "u1") "P"
        ⟨Role.user, "hi"⟩).getLast? = some ⟨Role.user, "hi"⟩ ∧
    ∀ message2 : String,
      Msg.mk Role.user "hi" ∈ append_and_trim
        ((chat (fun _ => none) "u1" "hi" "P"
          (fun _ => Except.error "boom")).2 "u1") "P"
        ⟨Role.user, message2⟩ :=
  c10_backend_failure_keeps_user_turn (fun _ => none) "u1" "hi" "P"
    (fun _ => Except.error "boom") "boom" rfl

/-! ### The message router and the webhook endpoint (src/app/app.py) -/

/-- A parsed inbound message, the result of `DingTalkUtils.parse_message`
(src/utils/dingtalk_utils.py lines 176-213). -/
structure InboundMsg where
  msg_type : String
  sender_id : String
  sender_nick : String
  content : String
  download_code : Option String
deriving DecidableEq, Repr

/-- A reply payload built by `DingTalkUtils.create_response_message`
(src/utils/dingtalk_utils.py lines 141-174). -/
structure ResponseMsg where
  msgtype : String
  content : String
deriving DecidableEq, Repr

/-- Model of `DingTalkUtils.create_response_message`: text and markdown are kept as
given, any other requested type falls back to a text payload. -/
def create_response_message (msg_type content : String) : ResponseMsg :=
  if msg_type = "text" then ⟨"text", content⟩
  else if msg_type = "markdown" then ⟨"markdown", content⟩
  else ⟨"text", content⟩

/-- An HTTP reply of the webhook endpoint: status code and optional reply
payload (the 401 branch carries only an error JSON, modelled as no reply
payload). -/
structure HttpReply where
  status : Nat
  body : Option ResponseMsg
deriving DecidableEq, Repr

/-- The message dispatch of the `webhook` view (src/app/app.py lines
84-103): text and audio are delegated to their handlers, both of which are
external parameters here that may raise; any other type is answered with
the fixed unsupported-type message naming the received type. -/
def routeMessage (info : InboundMsg)
    (textHandler : String → String → String → Except String String)
    (audioHandler : InboundMsg → Except String String) :
    Except String ResponseMsg :=
  if info.msg_type = "text" then
    (textHandler info.sender_id info.content info.sender_nick).map
      (create_response_message "text")
  else if info.msg_type = "audio" then
    (audioHandler info).map (create_response_message "text")
  else
    Except.ok (create_response_message "text"
      ("抱歉，暂不支持" ++ info.msg_type ++ "类型的消息。请发送文字或语音消息。"))

/-- The `/webhook` endpoint (src/app/app.py lines 59-110).  A failed
signature check returns HTTP 401 before any body processing; after a
successful check, the body parse and the handlers may raise, and the
enclosing try/except converts any exception into an HTTP 200 text reply
with the fixed apology of line 109. -/
def webhook (hmacB64 : String → String → String) (now_ms timestamp : Int)
    (sign app_secret : String) (body : Except String InboundMsg)
    (textHandler : String → String → String → Except String String)
    (audioHandler : InboundMsg → Except String String) : HttpReply :=
  if verify_signature hmacB64 now_ms timestamp sign app_secret = false then
    { status := 401, body := none }
  else
    match body.bind (fun info => routeMessage info textHandler audioHandler) with
    | .ok resp => { status := 200, body := some resp }
    | .error _ =>
        { status := 200,
          body := some (create_response_message "text"
            "抱歉，处理您的消息时出现错误，请稍后再试。") }

/-- C5.  Every request that passes signature verification is answered with
HTTP 200 and a reply payload, whatever the parse and handler outcomes —
downstream exceptions are converted to a user-visible text reply — and any
non-200 answer is the HTTP 401 of a failed signature check, with no body. -/
theorem c5_webhook_always_replies (hmacB64 : String → String → String)
    (now_ms timestamp : Int) (sign app_secret : String)
    (body : Except String InboundMsg)
    (textHandler : String → String → String → Except String String)
    (audioHandler : InboundMsg → Except String String) :
    (verify_signature hmacB64 now_ms timestamp sign app_secret = true →
      (webhook hmacB64 now_ms timestamp sign app_secret body textHandler
        audioHandler).status = 200 ∧
      ∃ r, (webhook hmacB64 now_ms timestamp sign app_secret body textHandler
        audioHandler).body = some r) ∧
    ((webhook hmacB64 now_ms timestamp sign app_secret body textHandler
        audioHandler).status ≠ 200 →
      verify_signature hmacB64 now_ms timestamp sign app_secret = false ∧
      (webhook hmacB64 now_ms timestamp sign app_secret body textHandler
        audioHandler).status = 401 ∧
      (webhook hmacB64 now_ms timestamp sign app_secret body textHandler
        audioHandler).body = none) := by
  by_cases hv : verify_signature hmacB64 now_ms timestamp sign app_secret = true
  · have hwh : webhook hmacB64 now_ms timestamp sign app_secret body
        textHandler audioHandler
        = match body.bind
            (fun info => routeMessage info textHandler audioHandler) with
          | .ok resp => { status := 200, body := some resp }
          | .error _ =>
              { status := 200,
                body := some (create_response_message "text"
                  "抱歉，处理您的消息时出现错误，请稍后再试。") } := by
      rw [webhook, if_neg (by simp [hv])]
    constructor
    · intro _
      rw [hwh]
      cases body.bind (fun info => routeMessage info textHandler audioHandler)
        with
      | ok r => exact ⟨rfl, r, rfl⟩
      | error er =>
          exact ⟨rfl, create_response_message "text"
            "抱歉，处理您的消息时出现错误，请稍后再试。", rfl⟩
    · intro hs
      exfalso
      apply hs
      rw [hwh]
      cases body.bind (fun info => routeMessage info textHandler audioHandler)
        with
      | ok r => rfl
      | error er => rfl
  · have hv' : verify_signature hmacB64 now_ms timestamp sign app_secret
        = false := by
      cases hb : verify_signature hmacB64 now_ms timestamp sign app_secret
      · rfl
      · exact absurd hb hv
    have hwh : webhook hmacB64 now_ms timestamp sign app_secret body
        textHandler audioHandler = { status := 401, body := none } := by
      rw [webhook, if_pos hv']
    exact ⟨fun h => absurd h hv, fun _ => ⟨hv', by rw [hwh], by rw [hwh]⟩⟩

/-- Closed instance of C5: a verified request whose handler raises is still
answered with HTTP 200 and a reply payload. -/
theorem c5_webhook_always_replies_witness :
    (webhook keyMsgConcat 0 0
        (keyMsgConcat "s" (toString (0 : Int) ++ "\n" ++ "s")) "s"
        (Except.ok ⟨"text", "u1", "nick", "hello", none⟩)
        (fun _ _ _ => Except.error "backend down")
        (fun _ => Except.error "backend down")).status = 200 ∧
    ∃ r, (webhook keyMsgConcat 0 0
        (keyMsgConcat "s" (toString (0 : Int) ++ "\n" ++ "s")) "s"
        (Except.ok ⟨"text", "u1", "nick", "hello", none⟩)
        (fun _ _ _ => Except.error "backend down")
        (fun _ => Except.error "backend down")).body = some r :=
  (c5_webhook_always_replies keyMsgConcat 0 0
      (keyMsgConcat "s" (toString (0 : Int) ++ "\n" ++ "s")) "s"
      (Except.ok ⟨"text", "u1", "nick", "hello", none⟩)
      (fun _ _ _ => Except.error "backend down")
      (fun _ => Except.error "backend down")).1 (by decide)

/-! ### C6: the report path leaves the session store untouched -/

/-- Result of routing one text message (`handle_text_message`,
src/app/app.py lines 113-141): the reply text, the session table afterwards,
and the topic handed to the Report Pipeline when the report path was taken
(`none` on the chat path). -/
structure TextResult where
  reply : String
  table : Table
  reportTopic : Option String

/-- Model of `handle_report_request` (src/app/app.py lines 144-198).  The Report
Pipeline — `generate_report_content` followed by
`PDFGenerator.generate_report_pdf` — is the external parameter `pipeline`
receiving the full message text as topic and producing the report content
(or raising).  Neither step reads or writes `conversation_history`, so the
table is returned unchanged; on an exception the reply is the apology of
line 198. -/
def handle_report_request (tbl : Table) (message user_name : String)
    (pipeline : String → Except String String) : TextResult :=
  match pipeline message with
  | .ok report_content =>
      { reply := "报告已生成完成！\n\n📊 报告主题：" ++ message ++
          "\n👤 请求人：" ++ user_name ++
          "\n📄 文件已保存到服务器\n\n" ++
          "由于当前环境限制，PDF文件已保存在服务器本地。\n" ++
          "在生产环境中，文件将上传到云存储并提供下载链接。\n\n报告摘要：\n" ++
          report_content.take 200 ++ "...\n\n完整内容请查看PDF文件。"
        table := tbl
        reportTopic := some message }
  | .error e =>
      { reply := "抱歉，生成报告时出现错误：" ++ e
        table := tbl
        reportTopic := some message }

/-- Model of `handle_text_message` (src/app/app.py lines 113-141): a message matching
a trigger keyword goes to the report path, anything else to `chat`. -/
def handle_text_message (tbl : Table) (user_id message user_name sp : String)
    (keywords : List (List Char))
    (pipeline : String → Except String String)
    (backend : List Msg → Except String String) : TextResult :=
  if should_generate_report message.toList keywords then
    handle_report_request tbl message user_name pipeline
  else
    let r := chat tbl user_id message sp backend
    { reply := r.1, table := r.2, reportTopic := none }

/-- C6.  A text message classified as Report is routed to the Report
Pipeline with the topic equal to the full message text, and the session
table — every user's transcript — is left unchanged by this path. -/
theorem c6_report_path_frame (tbl : Table)
    (user_id message user_name sp : String)
    (pipeline : String → Except String String)
    (backend : List Msg → Except String String)
    (hrep : should_generate_report message.toList REPORT_TRIGGER_KEYWORDS
      = true) :
    (handle_text_message tbl user_id message user_name sp
      REPORT_TRIGGER_KEYWORDS pipeline backend).reportTopic = some message ∧
    (handle_text_message tbl user_id message user_name sp
      REPORT_TRIGGER_KEYWORDS pipeline backend).table = tbl := by
  rw [handle_text_message, if_pos hrep]
  cases hp : pipeline message <;> simp [handle_report_request, hp]

/-- Closed instance of C6: the end-to-end scenario message
"请帮我写一份深入分析报告" of user "u1" contains the keyword "报告". -/
theorem c6_report_path_frame_witness :
    (handle_text_message (fun _ => none) "u1" "请帮我写一份深入分析报告"
      "nick" "P" REPORT_TRIGGER_KEYWORDS (fun _ => Except.ok "content")
      (fun _ => Except.ok "reply")).reportTopic
        = some "请帮我写一份深入分析报告" ∧
    (handle_text_message (fun _ => none) "u1" "请帮我写一份深入分析报告"
      "nick" "P" REPORT_TRIGGER_KEYWORDS (fun _ => Except.ok "content")
      (fun _ => Except.ok "reply")).table = (fun _ => none : Table) :=
  c6_report_path_frame (fun _ => none) "u1" "请帮我写一份深入分析报告"
    "nick" "P" (fun _ => Except.ok "content") (fun _ => Except.ok "reply")
    (by decide)

/-! ### C7: audio messages without a download code -/

/-- Result of routing one audio message (`handle_audio_message`,
src/app/app.py lines 201-250): the reply text and whether the Voice
Pipeline (`voice_processor.process_voice_message`: token fetch, download,
transcode, transcription) was invoked. -/
structure AudioResult where
  reply : String
  voiceInvoked : Bool
deriving DecidableEq, Repr

/-- Model of `handle_audio_message` (src/app/app.py lines 201-250).  The Voice
Pipeline and the follow-up chat reply are the external parameters `voice`
and `chatReply`.  An absent or empty `download_code` short-circuits to the
fixed message before the credential check and before any pipeline call;
missing DingTalk credentials short-circuit to an explanatory static
message; otherwise the recognized text re-enters the chat path unless it
carries one of the failure-sentinel prefixes, in which case it is returned
verbatim. -/
def handle_audio_message (info : InboundMsg) (app_key app_secret : String)
    (voice : String → String) (chatReply : String → String) : AudioResult :=
  match info.download_code with
  | none => { reply := "抱歉，无法获取语音文件。", voiceInvoked := false }
  | some dc =>
    if dc = "" then
      { reply := "抱歉，无法获取语音文件。", voiceInvoked := false }
    else if app_key = "" ∨ app_secret = "" then
      { reply := "收到您的语音消息！\n\n" ++
          "由于语音消息处理需要配置钉钉应用密钥（DINGTALK_APP_KEY 和 DINGTALK_APP_SECRET），\n" ++
          "当前环境未配置，暂时无法处理语音消息。\n\n请您：\n" ++
          "1. 使用文字消息与我交流\n2. 或者配置应用密钥后使用语音功能\n\n感谢您的理解！"
        voiceInvoked := false }
    else
      let text := voice dc
      if text != "" && !(text.startsWith "抱歉")
          && !(text.startsWith "语音识别失败") then
        { reply := "🎤 您说：" ++ text ++ "\n\n" ++ chatReply text
          voiceInvoked := true }
      else
        { reply := text, voiceInvoked := true }

/-- C7.  An audio message whose download code is absent or empty is answered
with the fixed "cannot retrieve voice file" message and the Voice Pipeline
is never invoked. -/
theorem c7_empty_download_code (info : InboundMsg) (app_key app_secret : String)
    (voice : String → String) (chatReply : String → String)
    (hdc : info.download_code = none ∨ info.download_code = some "") :
    (handle_audio_message info app_key app_secret voice chatReply).reply
      = "抱歉，无法获取语音文件。" ∧
    (handle_audio_message info app_key app_secret voice chatReply).voiceInvoked
      = false := by
  rcases hdc with h | h <;> rw [handle_audio_message, h] <;> simp

/-- Closed instance of C7 at a concrete audio message with an empty
download code. -/
theorem c7_empty_download_code_witness :
    (handle_audio_message ⟨"audio", "u1", "nick", "", some ""⟩ "k" "s"
      (fun _ => "text") (fun _ => "reply")).reply = "抱歉，无法获取语音文件。" ∧
    (handle_audio_message ⟨"audio", "u1", "nick", "", some ""⟩ "k" "s"
      (fun _ => "text") (fun _ => "reply")).voiceInvoked = false :=
  c7_empty_download_code ⟨"audio", "u1", "nick", "", some ""⟩ "k" "s"
    (fun _ => "text") (fun _ => "reply") (Or.inr rfl)

/-! ### C8: the daily-news fallback chain (src/utils/news_utils.py) -/

/-- One news item as assembled by `NewsUtils` (both the NewsAPI and the
mock provider build dicts with exactly these keys). -/
structure News where
  title : String
  description : String
  url : String
  source : String
  published_at : String
  image_url : String
deriving DecidableEq, Repr

/-- Model of `NewsUtils.get_ai_news_mock` (src/utils/news_utils.py lines 77-127):
five static articles dated with the current day, which the source takes
from `datetime.now()` and is passed in here as `today`. -/
def get_ai_news_mock (today : String) : List News :=
  [⟨"OpenAI发布GPT-5：多模态能力大幅提升",
    "OpenAI今日正式发布GPT-5模型，在图像理解、视频生成和代码编写等方面展现出革命性的进步。新模型支持更长的上下文窗口，推理能力显著增强。",
    "https://openai.com", "TechCrunch", today, ""⟩,
   ⟨"谷歌Gemini 2.0在多项基准测试中超越竞争对手",
    "谷歌最新发布的Gemini 2.0模型在MMLU、HumanEval等多项基准测试中取得领先成绩，特别是在数学推理和科学问题解答方面表现突出。",
    "https://deepmind.google", "The Verge", today, ""⟩,
   ⟨"Meta开源Llama 4：参数规模达到5000亿",
    "Meta宣布开源Llama 4系列模型，最大版本参数量达到5000亿，支持128种语言。这是迄今为止最大的开源语言模型。",
    "https://ai.meta.com", "VentureBeat", today, ""⟩,
   ⟨"自动驾驶技术突破：特斯拉FSD V13实现城市完全自动驾驶",
    "特斯拉最新的FSD V13版本在城市道路测试中实现零接管，标志着L4级自动驾驶技术的重大突破。",
    "https://tesla.com", "Reuters", today, ""⟩,
   ⟨"AI芯片市场竞争加剧：英伟达、AMD和英特尔三足鼎立",
    "随着AI需求爆发，英伟达H200、AMD MI300和英特尔Gaudi 3在数据中心市场展开激烈竞争，推动AI算力成本持续下降。",
    "https://nvidia.com", "Bloomberg", today, ""⟩]

/-- Markdown rendering of one numbered news item, the loop body of
`NewsUtils.format_news_as_markdown` (lines 146-157).  The source key
lookup `news.get('source', '未知')` always finds the key, since both
providers populate it, so it is the plain field here. -/
def formatNewsItem (i : Nat) (news : News) : String :=
  "## " ++ toString i ++ ". " ++ news.title ++ "\n\n" ++
  (if news.description ≠ "" then news.description ++ "\n\n" else "") ++
  "**来源**: " ++ news.source ++ "\n\n" ++
  (if news.url ≠ "" then "**链接**: [查看详情](" ++ news.url ++ ")\n\n"
   else "") ++
  "---\n\n"

/-- Model of `NewsUtils.format_news_as_markdown` (lines 129-161); `dateLine` stands
for the formatted current date and weekday produced from `datetime.now()`. -/
def format_news_as_markdown (dateLine : String) (news_list : List News) :
    String :=
  if news_list = [] then "暂无最新AI资讯"
  else
    "# 🤖 今日AI资讯速递\n\n📅 " ++ dateLine ++ "\n\n---\n\n" ++
    String.join (news_list.enum.map (fun p => formatNewsItem (p.1 + 1) p.2)) ++
    "\n💡 *由AI助手自动推送，祝您工作愉快！*"

/-- Model of `NewsUtils.get_daily_news` (lines 163-183).  The network fetch
`get_ai_news_from_newsapi` is an external collaborator modelled by the
parameter `liveNews`, the list it would return (it returns the empty list
on a missing key or any request failure). -/
def get_daily_news (use_mock : Bool) (api_key dateLine today : String)
    (liveNews : List News) : String :=
  if use_mock || api_key == "" then
    format_news_as_markdown dateLine (get_ai_news_mock today)
  else if liveNews = [] then
    format_news_as_markdown dateLine (get_ai_news_mock today)
  else
    format_news_as_markdown dateLine liveNews

theorem append_ne_empty_of_left (s t : String) (h : s ≠ "") : s ++ t ≠ "" := by
  intro he
  apply h
  have hl := congrArg String.length he
  rw [String.length_append] at hl
  have hs : s.length = 0 := by
    have : ("" : String).length = 0 := rfl
    omega
  have hdata : s.data = [] := List.eq_nil_of_length_eq_zero hs
  exact String.ext hdata

theorem format_news_ne_empty (dateLine : String) (l : List News) :
    format_news_as_markdown dateLine l ≠ "" := by
  rw [format_news_as_markdown]
  by_cases hl : l = []
  · rw [if_pos hl]
    decide
  · rw [if_neg hl]
    exact append_ne_empty_of_left "# 🤖 今日AI资讯速递\n\n📅 " _ (by decide)

/-- C8.  `get_daily_news` is an ordered fallback chain: the live provider
is used only when an API key is configured and returns a non-empty list;
otherwise the static mock provider supplies the articles.  The mock list is
never empty and the formatted digest is never the empty string, for every
configuration. -/
theorem c8_daily_news_fallback_chain (use_mock : Bool)
    (api_key dateLine today : String) (liveNews : List News) :
    get_daily_news use_mock api_key dateLine today liveNews
      = format_news_as_markdown dateLine
          (if use_mock || api_key == "" then get_ai_news_mock today
           else if liveNews = [] then get_ai_news_mock today
           else liveNews) ∧
    get_ai_news_mock today ≠ [] ∧
    get_daily_news use_mock api_key dateLine today liveNews ≠ "" := by
  refine ⟨?_, by rw [get_ai_news_mock]; exact List.cons_ne_nil _ _, ?_⟩
  · rw [get_daily_news]
    split_ifs <;> rfl
  · rw [get_daily_news]
    split_ifs <;> exact format_news_ne_empty _ _

/-! ### C9: the markdown bold/italic replacement in PDF rendering -/

/-- Python `str.replace` with the two-character pattern "**": every
non-overlapping occurrence, scanned left to right, is replaced by `repl`.
This is the primitive used twice in `PDFGenerator.generate_report_pdf`
line 177 (src/utils/pdf_utils.py). -/
def replaceTwoStars (repl : List Char) : List Char → List Char
  | [] => []
  | [c] => [c]
  | c :: d :: rest =>
    if c = '*' ∧ d = '*' then repl ++ replaceTwoStars repl rest
    else c :: replaceTwoStars repl (d :: rest)

/-- Python `str.replace` with the one-character pattern "*", the primitive
used twice in `PDFGenerator.generate_report_pdf` line 178. -/
def replaceOneStar (repl : List Char) : List Char → List Char
  | [] => []
  | c :: rest =>
    if c = '*' then repl ++ replaceOneStar repl rest
    else c :: replaceOneStar repl rest

/-- The transform applied to a normal paragraph line by
`PDFGenerator.generate_report_pdf` lines 177-178:
replace all "**" by an opening bold tag, then all "**" by the closing bold
tag, then all "*" by an opening italic tag, then all "*" by the closing
italic tag.  Since the first pass
already consumed every "**" (and the third every "*"), the closing-tag
passes never fire. -/
def mdLineTransform (line : List Char) : List Char :=
  replaceOneStar "</i>".toList
    (replaceOneStar "<i>".toList
      (replaceTwoStars "</b>".toList
        (replaceTwoStars "<b>".toList line)))

/-- A paragraph line containing two "**"-delimited bold spans: `b` and `d`
are the intended bold spans, `a`, `c`, `e` the surrounding text. -/
def mkBoldLine (a b c d e : List Char) : List Char :=
  a ++ '*' :: '*' ::
    (b ++ '*' :: '*' :: (c ++ '*' :: '*' :: (d ++ '*' :: '*' :: e)))

theorem replaceTwoStars_stars (r s : List Char) :
    replaceTwoStars r ('*' :: '*' :: s) = r ++ replaceTwoStars r s := by
  simp [replaceTwoStars]

theorem replaceTwoStars_append_of_no_star (r : List Char) {a : List Char}
    (s : List Char) (h : '*' ∉ a) :
    replaceTwoStars r (a ++ s) = a ++ replaceTwoStars r s := by
  induction a with
  | nil => simp
  | cons x a2 ih =>
    have hx : x ≠ '*' := fun hh => h (by simp [hh])
    have ha2 : '*' ∉ a2 := fun hh => h (by simp [hh])
    cases hcs : a2 ++ s with
    | nil =>
      obtain ⟨h1, h2⟩ := List.append_eq_nil.mp hcs
      subst h1
      subst h2
      simp [replaceTwoStars]
    | cons y t =>
      rw [List.cons_append, hcs, replaceTwoStars, if_neg (by simp [hx]),
        ← hcs, ih ha2, List.cons_append]

theorem replaceTwoStars_of_no_star (r : List Char) {s : List Char}
    (h : '*' ∉ s) : replaceTwoStars r s = s := by
  have := replaceTwoStars_append_of_no_star r ([] : List Char) h
  simpa [replaceTwoStars] using this

theorem replaceOneStar_of_no_star (r : List Char) {s : List Char}
    (h : '*' ∉ s) : replaceOneStar r s = s := by
  induction s with
  | nil => rfl
  | cons x s2 ih =>
    have hx : x ≠ '*' := fun hh => h (by simp [hh])
    have hs2 : '*' ∉ s2 := fun hh => h (by simp [hh])
    rw [replaceOneStar, if_neg hx, ih hs2]

theorem mkBoldLine_compute (a b c d e : List Char)
    (ha : '*' ∉ a) (hb : '*' ∉ b) (hc : '*' ∉ c) (hd : '*' ∉ d)
    (he : '*' ∉ e) :
    replaceTwoStars "<b>".toList (mkBoldLine a b c d e)
      = a ++ "<b>".toList ++ b ++ "<b>".toList ++ c ++ "<b>".toList ++ d
          ++ "<b>".toList ++ e := by
  rw [mkBoldLine,
    replaceTwoStars_append_of_no_star _ _ ha, replaceTwoStars_stars,
    replaceTwoStars_append_of_no_star _ _ hb, replaceTwoStars_stars,
    replaceTwoStars_append_of_no_star _ _ hc, replaceTwoStars_stars,
    replaceTwoStars_append_of_no_star _ _ hd, replaceTwoStars_stars,
    replaceTwoStars_of_no_star _ he]
  simp [List.append_assoc]

/-- C9.  For every paragraph line with two "**"-delimited bold spans (the
spans and the surrounding text free of the markup characters), the
transform of lines 174-179 turns every "**" into an opening bold tag and
produces no closing bold tag at all — the output contains no occurrence of
the four-character closing tag, so no span ends up in a correctly matched
opening/closing pair. -/
theorem c9_bold_replacement_never_pairs (a b c d e : List Char)
    (h : ∀ x ∈ [a, b, c, d, e], '*' ∉ x ∧ '/' ∉ x) :
    mdLineTransform (mkBoldLine a b c d e)
      = a ++ "<b>".toList ++ b ++ "<b>".toList ++ c ++ "<b>".toList ++ d
          ++ "<b>".toList ++ e ∧
    ¬ "</b>".toList <:+: mdLineTransform (mkBoldLine a b c d e) := by
  have ha := h a (by simp)
  have hb := h b (by simp)
  have hc := h c (by simp)
  have hd := h d (by simp)
  have he := h e (by simp)
  have ht1 := mkBoldLine_compute a b c d e ha.1 hb.1 hc.1 hd.1 he.1
  have hnostar : '*' ∉ a ++ "<b>".toList ++ b ++ "<b>".toList ++ c
      ++ "<b>".toList ++ d ++ "<b>".toList ++ e := by
    simp [List.mem_append, ha.1, hb.1, hc.1, hd.1, he.1]
  have htr : mdLineTransform (mkBoldLine a b c d e)
      = a ++ "<b>".toList ++ b ++ "<b>".toList ++ c ++ "<b>".toList ++ d
          ++ "<b>".toList ++ e := by
    rw [mdLineTransform, ht1, replaceTwoStars_of_no_star _ hnostar,
      replaceOneStar_of_no_star _ hnostar, replaceOneStar_of_no_star _ hnostar]
  refine ⟨htr, ?_⟩
  intro hinf
  rw [htr] at hinf
  have hslash : ('/' : Char) ∈ a ++ "<b>".toList ++ b ++ "<b>".toList ++ c
      ++ "<b>".toList ++ d ++ "<b>".toList ++ e :=
    hinf.subset (by decide)
  simp [List.mem_append, ha.2, hb.2, hc.2, hd.2, he.2] at hslash

/-- Closed instance of C9 on the line "intro **first** mid **second** end". -/
theorem c9_bold_replacement_never_pairs_witness :
    (∀ x ∈ ["intro ".toList, "first".toList, " mid ".toList,
        "second".toList, " end".toList], '*' ∉ x ∧ '/' ∉ x) ∧
    (mdLineTransform (mkBoldLine "intro ".toList "first".toList " mid ".toList
        "second".toList " end".toList)
      = "intro ".toList ++ "<b>".toList ++ "first".toList ++ "<b>".toList
          ++ " mid ".toList ++ "<b>".toList ++ "second".toList
          ++ "<b>".toList ++ " end".toList ∧
    ¬ "</b>".toList <:+: mdLineTransform (mkBoldLine "intro ".toList
        "first".toList " mid ".toList "second".toList " end".toList)) :=
  ⟨by decide, c9_bold_replacement_never_pairs "intro ".toList "first".toList
    " mid ".toList "second".toList " end".toList (by decide)⟩

end DingTalk
